/-
  Verification of the SceneManager component
  (src/Source/SceneManager.cpp of the CS330 still-life scene renderer).

  Shallow embedding: the C++ member state that SceneManager reads and writes
  is modelled by `SceneState`; every observable effect (shader uniform
  uploads, OpenGL texture calls, mesh draw calls, log lines) is recorded as
  an `Event` in an output trace.  Float values are modelled as exact
  rationals (ℚ); the per-draw model matrix, which involves trigonometry, is
  modelled separately over ℝ (`modelMatrix` below).  Operations that in the
  C++ dereference a possibly-null pointer without a check are modelled as
  returning `Option`, with `none` standing for the null-pointer dereference
  (undefined behavior / crash).
-/
import Mathlib

namespace SceneMgr

/-- Three-component float vector (glm::vec3), modelled with exact
rationals. -/
structure Vec3 where
  x : ℚ
  y : ℚ
  z : ℚ
deriving DecidableEq, Repr

/-- One entry of the texture catalog `m_textureIDs`: a GPU handle and a tag.
The C++ stores a fixed 16-slot array plus a count `m_loadedTextures`; the
populated prefix is modelled as a list. -/
structure TextureEntry where
  ID : Nat
  tag : String
deriving DecidableEq, Repr

/-- The OBJECT_MATERIAL record: diffuse color, specular color, shininess
and tag. -/
structure OBJECT_MATERIAL where
  diffuseColor : Vec3
  specularColor : Vec3
  shininess : ℚ
  tag : String
deriving DecidableEq, Repr

/-- Mesh kinds drawable through the Mesh Library (`MeshType` in the C++). -/
inductive MeshType where
  | Plane
  | Sphere
  | Cylinder
  | Box
deriving DecidableEq, Repr

/-- One draw command of the fixed scene list (`DrawCmd` in the C++). -/
structure DrawCmd where
  type : MeshType
  scale : Vec3
  rotationDeg : Vec3
  translation : Vec3
  material : String
  texture : String
deriving DecidableEq, Repr

/-- Result of decoding an image file via stbi_load: either failure (null
pixel buffer) or success with the reported width, height and channel
count.  The image-decoding library is an external boundary, so the decode
outcome is a parameter of `CreateGLTexture`. -/
inductive DecodeResult where
  | failure
  | success (width : Nat) (height : Nat) (colorChannels : Nat)
deriving DecidableEq, Repr

/-- Observable effects of the SceneManager: shader uniform uploads (the
`ShaderManager` setters), raw OpenGL texture calls, mesh draw calls, and
log lines.  `setMat4Model` records the arguments of `SetTransformations`
from which the uploaded model matrix is computed (the matrix itself is
`modelMatrix`, defined over ℝ below). -/
inductive Event where
  | setMat4Model (scale : Vec3) (rotationDeg : Vec3) (position : Vec3)
  | setIntValue (name : String) (v : Int)
  | setBoolValue (name : String) (b : Bool)
  | setVec4Value (name : String) (r : ℚ) (g : ℚ) (b : ℚ) (a : ℚ)
  | setVec3Value (name : String) (x : ℚ) (y : ℚ) (z : ℚ)
  | setVec2Value (name : String) (u : ℚ) (v : ℚ)
  | setFloatValue (name : String) (v : ℚ)
  | setSampler2DValue (name : String) (slot : Int)
  | glGenTexturesCall
  | glDeleteTexturesCall
  | glBindTextureCall (id : Nat)
  | glActiveTextureCall (unit : Nat)
  | glTexParameteriCall
  | glTexImage2DCall (channels : Nat)
  | glGenerateMipmapCall
  | loadMeshCall (k : MeshType)
  | drawMeshCall (k : MeshType)
  | logLine (msg : String)
deriving DecidableEq, Repr

/-- The SceneManager member state: whether `m_pShaderManager` is non-null,
whether `m_basicMeshes` is non-null, the populated prefix of
`m_textureIDs` (so `m_loadedTextures` is its length), and
`m_objectMaterials`. -/
structure SceneState where
  shaderAttached : Bool
  meshesPresent : Bool
  textureIDs : List TextureEntry
  objectMaterials : List OBJECT_MATERIAL
deriving DecidableEq, Repr

/-- The member `m_loadedTextures`: the count of loaded textures. -/
def SceneState.loadedTextures (s : SceneState) : Nat :=
  s.textureIDs.length

/-- SceneManager::CreateGLTexture.  Decodes `filename` (outcome supplied as
`img`); on success generates a texture handle (`newID`, the value produced
by glGenTextures), sets the wrap/filter parameters, uploads the pixels when
the channel count is 3 or 4 and appends a `{handle, tag}` entry to the
catalog; a channel count outside {3,4} or a decode failure is logged and
reported as failure with the catalog untouched. -/
def CreateGLTexture (s : SceneState) (img : DecodeResult) (filename : String)
    (tag : String) (newID : Nat) : Bool × SceneState × List Event :=
  match img with
  | .success _ _ colorChannels =>
      let pre : List Event :=
        [.logLine ("Successfully loaded image:" ++ filename),
         .glGenTexturesCall, .glBindTextureCall newID,
         .glTexParameteriCall, .glTexParameteriCall,
         .glTexParameteriCall, .glTexParameteriCall]
      if colorChannels = 3 ∨ colorChannels = 4 then
        (true,
         { s with textureIDs := s.textureIDs ++ [{ ID := newID, tag := tag }] },
         pre ++ [.glTexImage2DCall colorChannels, .glGenerateMipmapCall,
                 .glBindTextureCall 0])
      else
        (false, s,
         pre ++ [.logLine "Not implemented to handle image channels"])
  | .failure =>
      (false, s, [.logLine ("Could not load image:" ++ filename)])

/-- The loop body of SceneManager::BindGLTextures: for each catalog index
`i`, activate texture unit `i` and bind the entry's handle. -/
def bindGLTexturesLoop : Nat → List TextureEntry → List Event
  | _, [] => []
  | i, e :: rest =>
      .glActiveTextureCall i :: .glBindTextureCall e.ID ::
        bindGLTexturesLoop (i + 1) rest

/-- SceneManager::BindGLTextures: binds every catalog texture to the
texture unit equal to its catalog index; no member state is written. -/
def BindGLTextures (s : SceneState) : SceneState × List Event :=
  (s, bindGLTexturesLoop 0 s.textureIDs)

/-- The loop body of SceneManager::DestroyGLTextures: for each catalog
index, calls glGenTextures on the entry's ID field, overwriting the stored
handle with a freshly generated one (`freshID i` models the handle
glGenTextures writes back at loop index `i`). -/
def destroyGLTexturesLoop (freshID : Nat → Nat) :
    Nat → List TextureEntry → List TextureEntry × List Event
  | _, [] => ([], [])
  | i, e :: rest =>
      let r := destroyGLTexturesLoop freshID (i + 1) rest
      ({ e with ID := freshID i } :: r.1, .glGenTexturesCall :: r.2)

/-- SceneManager::DestroyGLTextures, as written in the source: it issues
glGenTextures (not glDeleteTextures) on each stored handle. -/
def DestroyGLTextures (s : SceneState) (freshID : Nat → Nat) :
    SceneState × List Event :=
  let r := destroyGLTexturesLoop freshID 0 s.textureIDs
  ({ s with textureIDs := r.1 }, r.2)

/-- The while-loop of SceneManager::FindTextureID: first entry whose tag
matches yields its ID; otherwise −1. -/
def findTextureIDLoop (tag : String) : List TextureEntry → Int
  | [] => -1
  | e :: rest =>
      if e.tag = tag then (e.ID : Int) else findTextureIDLoop tag rest

/-- SceneManager::FindTextureID: handle of the first catalog entry with the
given tag, or −1 when none matches. -/
def FindTextureID (s : SceneState) (tag : String) : Int :=
  findTextureIDLoop tag s.textureIDs

/-- The while-loop of SceneManager::FindTextureSlot: index of the first
entry whose tag matches; otherwise −1. -/
def findTextureSlotLoop (tag : String) : Int → List TextureEntry → Int
  | _, [] => -1
  | i, e :: rest =>
      if e.tag = tag then i else findTextureSlotLoop tag (i + 1) rest

/-- SceneManager::FindTextureSlot: catalog index (= texture unit) of the
first entry with the given tag, or −1 when none matches. -/
def FindTextureSlot (s : SceneState) (tag : String) : Int :=
  findTextureSlotLoop tag 0 s.textureIDs

/-- The while-loop of SceneManager::FindMaterial: scans the catalog for the
first entry with the given tag and copies its diffuse color, specular
color and shininess (not the tag) into the reference parameter `material`;
when no entry matches, `material` is returned unmodified. -/
def findMaterialScan (tag : String) (material : OBJECT_MATERIAL) :
    List OBJECT_MATERIAL → OBJECT_MATERIAL
  | [] => material
  | m :: rest =>
      if m.tag = tag then
        { material with
            diffuseColor := m.diffuseColor,
            specularColor := m.specularColor,
            shininess := m.shininess }
      else
        findMaterialScan tag material rest

/-- SceneManager::FindMaterial.  The C++ takes `material` by reference;
the pair returned here is (the returned bool, the final value of that
reference parameter).  Note the source returns `false` only on an empty
catalog and `true` otherwise, found or not. -/
def FindMaterial (s : SceneState) (tag : String)
    (material : OBJECT_MATERIAL) : Bool × OBJECT_MATERIAL :=
  if s.objectMaterials.length = 0 then
    (false, material)
  else
    (true, findMaterialScan tag material s.objectMaterials)

/-- SceneManager::SetTransformations: computes the model matrix
(translation * rotationZ * rotationY * rotationX * scale, see
`modelMatrix`) and uploads it under the uniform name "model" when a shader
manager is attached; otherwise does nothing. -/
def SetTransformations (s : SceneState) (scaleXYZ : Vec3)
    (XrotationDegrees YrotationDegrees ZrotationDegrees : ℚ)
    (positionXYZ : Vec3) : List Event :=
  if s.shaderAttached then
    [.setMat4Model scaleXYZ
      ⟨XrotationDegrees, YrotationDegrees, ZrotationDegrees⟩ positionXYZ]
  else
    []

/-- SceneManager::SetShaderColor: when a shader manager is attached,
disables texture mode and uploads the RGBA color; otherwise does
nothing. -/
def SetShaderColor (s : SceneState) (r g b a : ℚ) : List Event :=
  if s.shaderAttached then
    [.setIntValue "bUseTexture" 0, .setVec4Value "objectColor" r g b a]
  else
    []

/-- SceneManager::SetShaderTexture: when a shader manager is attached,
enables texture mode and uploads the texture slot found for the tag (−1
when the tag is unknown); otherwise does nothing. -/
def SetShaderTexture (s : SceneState) (textureTag : String) : List Event :=
  if s.shaderAttached then
    [.setIntValue "bUseTexture" 1,
     .setSampler2DValue "objectTexture" (FindTextureSlot s textureTag)]
  else
    []

/-- SceneManager::SetTextureUVScale: when a shader manager is attached,
uploads the 2-component UV scale; otherwise does nothing. -/
def SetTextureUVScale (s : SceneState) (u v : ℚ) : List Event :=
  if s.shaderAttached then [.setVec2Value "UVscale" u v] else []

/-- SceneManager::SetShaderMaterial.  The C++ declares a local
`OBJECT_MATERIAL material` (its indeterminate initial value is the
parameter `localInit`), calls FindMaterial, and — when FindMaterial
reported success — calls the shader manager's setters WITHOUT a null
check.  `none` models that null-pointer dereference when no shader manager
is attached. -/
def SetShaderMaterial (s : SceneState) (materialTag : String)
    (localInit : OBJECT_MATERIAL) : Option (List Event) :=
  if s.objectMaterials.length > 0 then
    let found := FindMaterial s materialTag localInit
    if found.1 then
      if s.shaderAttached then
        some [.setVec3Value "material.diffuseColor"
                found.2.diffuseColor.x found.2.diffuseColor.y
                found.2.diffuseColor.z,
              .setVec3Value "material.specularColor"
                found.2.specularColor.x found.2.specularColor.y
                found.2.specularColor.z,
              .setFloatValue "material.shininess" found.2.shininess]
      else
        none
    else
      some []
  else
    some []

/-- The plastic material defined in DefineObjectMaterials. -/
def plasticMaterial : OBJECT_MATERIAL :=
  { diffuseColor := ⟨0.8, 0.4, 0.8⟩, specularColor := ⟨0.2, 0.2, 0.2⟩,
    shininess := 1.0, tag := "plastic" }

/-- The wood material defined in DefineObjectMaterials. -/
def woodMaterial : OBJECT_MATERIAL :=
  { diffuseColor := ⟨0.6, 0.5, 0.2⟩, specularColor := ⟨0.1, 0.2, 0.2⟩,
    shininess := 1.0, tag := "wood" }

/-- The metal material defined in DefineObjectMaterials. -/
def metalMaterial : OBJECT_MATERIAL :=
  { diffuseColor := ⟨0.3, 0.3, 0.2⟩, specularColor := ⟨0.7, 0.7, 0.8⟩,
    shininess := 8.0, tag := "metal" }

/-- The glass material defined in DefineObjectMaterials. -/
def glassMaterial : OBJECT_MATERIAL :=
  { diffuseColor := ⟨0.3, 0.3, 0.2⟩, specularColor := ⟨0.9, 0.9, 0.8⟩,
    shininess := 10.0, tag := "glass" }

/-- The tile material defined in DefineObjectMaterials. -/
def tileMaterial : OBJECT_MATERIAL :=
  { diffuseColor := ⟨0.5, 0.5, 0.5⟩, specularColor := ⟨0.7, 0.7, 0.7⟩,
    shininess := 6.0, tag := "tile" }

/-- The stone material defined in DefineObjectMaterials. -/
def stoneMaterial : OBJECT_MATERIAL :=
  { diffuseColor := ⟨0.5, 0.5, 0.5⟩, specularColor := ⟨0.73, 0.3, 0.3⟩,
    shininess := 6.0, tag := "stone" }

/-- The six materials DefineObjectMaterials pushes back, in push order. -/
def sceneMaterials : List OBJECT_MATERIAL :=
  [plasticMaterial, woodMaterial, metalMaterial, glassMaterial,
   tileMaterial, stoneMaterial]

/-- SceneManager::DefineObjectMaterials: appends the six fixed materials to
the material catalog, in order plastic, wood, metal, glass, tile, stone. -/
def DefineObjectMaterials (s : SceneState) : SceneState :=
  { s with objectMaterials := s.objectMaterials ++ sceneMaterials }

/-- The 11 (file path, tag) pairs CreateGLTexture is called with in
SceneManager::LoadSceneTextures, in call order. -/
def sceneTextureFiles : List (String × String) :=
  [("textures/Lid.png", "Lid"),
   ("textures/Stone.png", "Stone"),
   ("textures/Pasta.png", "pasta"),
   ("textures/glass.png", "glass"),
   ("textures/jar.png", "jar"),
   ("textures/beanContainer.png", "beancontainer"),
   ("textures/beanContainer1.png", "beancontainer1"),
   ("textures/painting.png", "painting"),
   ("textures/table.png", "table"),
   ("textures/wall.png", "wall"),
   ("textures/plastic.png", "plastic")]

/-- The sequence of CreateGLTexture calls in LoadSceneTextures, threading
the state; `env` gives the decode outcome per file path and `ids` the
handle glGenTextures yields for the n-th successfully decoded call of this
run.  Each boolean result is assigned to the ignored local `bReturn`,
exactly as in the source. -/
def loadTexturesCalls (env : String → DecodeResult) (ids : Nat → Nat) :
    Nat → SceneState → List (String × String) → SceneState × List Event
  | _, s, [] => (s, [])
  | n, s, (filename, tag) :: rest =>
      let r := CreateGLTexture s (env filename) filename tag (ids n)
      let next := loadTexturesCalls env ids (n + 1) r.2.1 rest
      (next.1, r.2.2 ++ next.2)

/-- SceneManager::LoadSceneTextures: loads the fixed 11-file texture list
(ignoring each call's success flag) and then calls BindGLTextures. -/
def LoadSceneTextures (s : SceneState) (env : String → DecodeResult)
    (ids : Nat → Nat) : SceneState × List Event :=
  let loaded := loadTexturesCalls env ids 0 s sceneTextureFiles
  let bound := BindGLTextures loaded.1
  (bound.1, loaded.2 ++ bound.2)

/-- SceneManager::SetupSceneLights.  Every statement dereferences
`m_pShaderManager` without a null check, so `none` models the crash when
no shader manager is attached; otherwise the uniform uploads for the two
configured light slots are emitted in source order. -/
def SetupSceneLights (s : SceneState) : Option (List Event) :=
  if s.shaderAttached then
    some [.setBoolValue "bUseLighting" true,
          .setVec3Value "pointLights[0].position" (-20.5) 10.0 (-10.0),
          .setVec3Value "pointLights[0].direction" 20.5 (-10.0) 10.0,
          .setBoolValue "pointLights[0].bUseDirection" true,
          .setVec3Value "pointLights[0].ambient"
            (1.0 * 0.51) (0.994 * 0.51) (0.75 * 0.51),
          .setVec3Value "pointLights[0].diffuse"
            (1.0 * 0.56) (0.994 * 0.56) (0.75 * 0.56),
          .setVec3Value "pointLights[0].specular"
            (1.0 * 0.54) (0.994 * 0.54) (0.75 * 0.54),
          .setFloatValue "pointLights[0].focalStrength" 102.0,
          .setFloatValue "pointLights[0].specularIntensity" 2.1,
          .setBoolValue "pointLights[0].bActive" true,
          .setVec3Value "pointLights[1].position" 4.0 4.0 4.0,
          .setBoolValue "pointLights[1].bUseDirection" false,
          .setVec3Value "pointLights[1].ambient"
            (0.6 * 0.5) (0.77 * 0.5) (0.9 * 0.5),
          .setVec3Value "pointLights[1].diffuse"
            (0.6 * 0.2) (0.77 * 0.2) (0.9 * 0.2),
          .setVec3Value "pointLights[1].specular"
            (0.6 * 0.0) (0.77 * 0.0) (0.9 * 0.0),
          .setFloatValue "pointLights[1].focalStrength" 12.0,
          .setFloatValue "pointLights[1].specularIntensity" 0.0,
          .setBoolValue "pointLights[1].bActive" true]
  else
    none

/-- SceneManager::PrepareScene: LoadSceneTextures, DefineObjectMaterials,
SetupSceneLights, then the four mesh loads.  The mesh loads dereference
`m_basicMeshes` without a null check, modelled like the shader case. -/
def PrepareScene (s : SceneState) (env : String → DecodeResult)
    (ids : Nat → Nat) : Option (SceneState × List Event) :=
  let loaded := LoadSceneTextures s env ids
  let defined := DefineObjectMaterials loaded.1
  match SetupSceneLights defined with
  | none => none
  | some lightEvents =>
      if defined.meshesPresent then
        some (defined,
          loaded.2 ++ lightEvents ++
            [.loadMeshCall .Plane, .loadMeshCall .Cylinder,
             .loadMeshCall .Box, .loadMeshCall .Sphere])
      else
        none

/-- The literal draw-command list `cmds` in SceneManager::RenderScene, in
declaration order. -/
def sceneCmds : List DrawCmd :=
  [{ type := .Plane, scale := ⟨20.0, 1.0, 10.0⟩,
     rotationDeg := ⟨90.0, 0.0, 0.0⟩, translation := ⟨0.0, 9.0, -10.0⟩,
     material := "stone", texture := "wall" },
   { type := .Plane, scale := ⟨20.0, 1.0, 10.0⟩,
     rotationDeg := ⟨0.0, 0.0, 0.0⟩, translation := ⟨0.0, 0.0, 0.0⟩,
     material := "wood", texture := "table" },
   { type := .Sphere, scale := ⟨0.3, 0.3, 0.3⟩,
     rotationDeg := ⟨0.0, 0.0, 0.0⟩, translation := ⟨-6.0, 0.3, -3.0⟩,
     material := "stone", texture := "Stone" },
   { type := .Cylinder, scale := ⟨1.0, 2.5, 1.0⟩,
     rotationDeg := ⟨0.0, 0.0, 0.0⟩, translation := ⟨-3.0, 0.3, 0.0⟩,
     material := "glass", texture := "glass" },
   { type := .Cylinder, scale := ⟨3.0, 1.0, 3.0⟩,
     rotationDeg := ⟨0.0, 0.0, 0.0⟩, translation := ⟨1.0, 0.2, 0.98⟩,
     material := "plastic", texture := "beancontainer1" },
   { type := .Cylinder, scale := ⟨3.0, 3.0, 3.0⟩,
     rotationDeg := ⟨0.0, 2.0, 0.0⟩, translation := ⟨1.0, 1.2, 0.98⟩,
     material := "plastic", texture := "beancontainer" },
   { type := .Cylinder, scale := ⟨2.8, 0.5, 2.8⟩,
     rotationDeg := ⟨0.0, 0.0, 0.0⟩, translation := ⟨1.0, 4.2, 0.98⟩,
     material := "plastic", texture := "plastic" },
   { type := .Cylinder, scale := ⟨1.5, 3.5, 1.5⟩,
     rotationDeg := ⟨0.0, 0.0, 0.0⟩, translation := ⟨6.0, 0.1, 0.0⟩,
     material := "glass", texture := "jar" },
   { type := .Cylinder, scale := ⟨1.0, 0.3, 1.0⟩,
     rotationDeg := ⟨0.0, 0.0, 0.0⟩, translation := ⟨6.0, 3.5, 0.0⟩,
     material := "plastic", texture := "Lid" },
   { type := .Box, scale := ⟨3.5, 0.01, 5.5⟩,
     rotationDeg := ⟨90.0, 180.0, 0.0⟩, translation := ⟨6.0, 8.5, -10.0⟩,
     material := "plastic", texture := "painting" },
   { type := .Box, scale := ⟨1.5, 0.4, 3.0⟩,
     rotationDeg := ⟨0.0, 80.0, 0.0⟩, translation := ⟨3.0, 0.3, 5.5⟩,
     material := "plastic", texture := "pasta" },
   { type := .Box, scale := ⟨1.5, 0.4, 3.0⟩,
     rotationDeg := ⟨0.0, 65.0, 0.0⟩, translation := ⟨3.0, 0.6, 5.5⟩,
     material := "plastic", texture := "pasta" },
   { type := .Box, scale := ⟨1.5, 0.4, 3.0⟩,
     rotationDeg := ⟨0.0, 65.0, 0.0⟩, translation := ⟨3.0, 1.0, 5.5⟩,
     material := "plastic", texture := "pasta" }]

/-- The `drawOne` lambda in SceneManager::RenderScene: applies the
command's transform, material and texture (in that order), then issues the
matching mesh draw call.  `none` propagates the SetShaderMaterial
null-dereference case. -/
def drawOne (s : SceneState) (localInit : OBJECT_MATERIAL) (c : DrawCmd) :
    Option (List Event) :=
  match SetShaderMaterial s c.material localInit with
  | none => none
  | some materialEvents =>
      some (SetTransformations s c.scale c.rotationDeg.x c.rotationDeg.y
              c.rotationDeg.z c.translation ++
            materialEvents ++
            SetShaderTexture s c.texture ++
            [.drawMeshCall c.type])

/-- The for-loop over `cmds` in SceneManager::RenderScene. -/
def renderLoop (s : SceneState) (localInit : OBJECT_MATERIAL) :
    List DrawCmd → Option (List Event)
  | [] => some []
  | c :: rest =>
      match drawOne s localInit c with
      | none => none
      | some e =>
          match renderLoop s localInit rest with
          | none => none
          | some es => some (e ++ es)

/-- SceneManager::RenderScene: when `m_basicMeshes` is null, logs an error
and returns without drawing; otherwise iterates the fixed draw-command
list.  `localInit` is the indeterminate initial value of the local
`OBJECT_MATERIAL` inside SetShaderMaterial.  The source writes no member
state in either path, so the state is unchanged by construction. -/
def RenderScene (s : SceneState) (localInit : OBJECT_MATERIAL) :
    Option (List Event) :=
  if s.meshesPresent then
    renderLoop s localInit sceneCmds
  else
    some [.logLine "ERROR: m_basicMeshes is null!"]

/-- Events that are shader uniform uploads. -/
def isUploadEvent : Event → Bool
  | .setMat4Model _ _ _ => true
  | .setIntValue _ _ => true
  | .setBoolValue _ _ => true
  | .setVec4Value _ _ _ _ _ => true
  | .setVec3Value _ _ _ _ => true
  | .setVec2Value _ _ _ => true
  | .setFloatValue _ _ => true
  | .setSampler2DValue _ _ => true
  | _ => false

/-- The mesh kind of a draw-call event, `none` for any other event. -/
def drawKindOf : Event → Option MeshType
  | .drawMeshCall k => some k
  | _ => none

/-- A sample concrete material value, used as the indeterminate initial
value of SetShaderMaterial's local in concrete evaluations. -/
def sampleMaterial : OBJECT_MATERIAL :=
  { diffuseColor := ⟨0, 0, 0⟩, specularColor := ⟨0, 0, 0⟩,
    shininess := 0, tag := "" }

/-- glm::radians: degrees to radians. -/
noncomputable def radians (deg : ℝ) : ℝ :=
  deg * (Real.pi / 180)

/-- glm::scale(scaleXYZ): the homogeneous 4×4 scale matrix. -/
def scaleMatrix (sx sy sz : ℝ) : Matrix (Fin 4) (Fin 4) ℝ :=
  !![sx, 0, 0, 0;
     0, sy, 0, 0;
     0, 0, sz, 0;
     0, 0, 0, 1]

/-- glm::rotate(t, vec3(1,0,0)): rotation about the X axis. -/
noncomputable def rotationXMatrix (t : ℝ) : Matrix (Fin 4) (Fin 4) ℝ :=
  !![1, 0, 0, 0;
     0, Real.cos t, -Real.sin t, 0;
     0, Real.sin t, Real.cos t, 0;
     0, 0, 0, 1]

/-- glm::rotate(t, vec3(0,1,0)): rotation about the Y axis. -/
noncomputable def rotationYMatrix (t : ℝ) : Matrix (Fin 4) (Fin 4) ℝ :=
  !![Real.cos t, 0, Real.sin t, 0;
     0, 1, 0, 0;
     -Real.sin t, 0, Real.cos t, 0;
     0, 0, 0, 1]

/-- glm::rotate(t, vec3(0,0,1)): rotation about the Z axis. -/
noncomputable def rotationZMatrix (t : ℝ) : Matrix (Fin 4) (Fin 4) ℝ :=
  !![Real.cos t, -Real.sin t, 0, 0;
     Real.sin t, Real.cos t, 0, 0;
     0, 0, 1, 0;
     0, 0, 0, 1]

/-- glm::translate(positionXYZ): the homogeneous 4×4 translation matrix. -/
def translationMatrix (tx ty tz : ℝ) : Matrix (Fin 4) (Fin 4) ℝ :=
  !![1, 0, 0, tx;
     0, 1, 0, ty;
     0, 0, 1, tz;
     0, 0, 0, 1]

/-- The model matrix computed in SceneManager::SetTransformations:
`modelView = translation * rotationZ * rotationY * rotationX * scale`,
with the rotation angles supplied in degrees and converted to radians. -/
noncomputable def modelMatrix (sx sy sz : ℝ)
    (XrotationDegrees YrotationDegrees ZrotationDegrees : ℝ)
    (tx ty tz : ℝ) : Matrix (Fin 4) (Fin 4) ℝ :=
  translationMatrix tx ty tz *
    rotationZMatrix (radians ZrotationDegrees) *
    rotationYMatrix (radians YrotationDegrees) *
    rotationXMatrix (radians XrotationDegrees) *
    scaleMatrix sx sy sz

/-- Names the first matching material of the catalog, following the spec's
description of FindMaterial as a first-match linear lookup. -/
def specFirstMaterial (mats : List OBJECT_MATERIAL) (tag : String) :
    Option OBJECT_MATERIAL :=
  mats.find? (fun m => m.tag == tag)

/-- The upload block the spec prescribes per draw command: one model
transform upload, one material upload (the three material uniforms of the
first catalog material matching the command's tag), one texture upload
(texture-enable flag plus the sampler slot for the command's texture tag),
then the matching mesh draw call — in that order. -/
def specDrawBlock (ts : List TextureEntry) (c : DrawCmd) : List Event :=
  [Event.setMat4Model c.scale c.rotationDeg c.translation] ++
  (match specFirstMaterial sceneMaterials c.material with
   | some mat =>
       [Event.setVec3Value "material.diffuseColor"
          mat.diffuseColor.x mat.diffuseColor.y mat.diffuseColor.z,
        Event.setVec3Value "material.specularColor"
          mat.specularColor.x mat.specularColor.y mat.specularColor.z,
        Event.setFloatValue "material.shininess" mat.shininess]
   | none => []) ++
  [Event.setIntValue "bUseTexture" 1,
   Event.setSampler2DValue "objectTexture" (findTextureSlotLoop c.texture 0 ts)] ++
  [Event.drawMeshCall c.type]

/-- The event trace the spec prescribes for one RenderScene call: the
per-command upload blocks of the 13 fixed draw commands, concatenated in
declaration order. -/
def specRenderTrace (ts : List TextureEntry) : List Event :=
  (sceneCmds.map (specDrawBlock ts)).flatten

/- ------------------------------------------------------------------ -/
/- Helper lemmas                                                       -/
/- ------------------------------------------------------------------ -/

theorem findTextureSlotLoop_eq_findIdx (tag : String) (l : List TextureEntry) :
    ∀ n : Nat,
      findTextureSlotLoop tag (n : Int) l =
        match l.findIdx? (fun e => e.tag == tag) n with
        | none => -1
        | some j => (j : Int) := by
  induction l with
  | nil => intro n; rfl
  | cons e rest ih =>
      intro n
      by_cases hc : e.tag = tag
      · simp [findTextureSlotLoop, hc, List.findIdx?_cons]
      · have hb : (e.tag == tag) = false := by simp [hc]
        have hcast : ((n : Int) + 1) = ((n + 1 : Nat) : Int) := by push_cast; ring
        simp only [findTextureSlotLoop, hc, if_false, List.findIdx?_cons, hb,
          Bool.false_eq_true, hcast]
        exact ih (n + 1)

theorem findTextureIDLoop_eq_find (tag : String) (l : List TextureEntry) :
    findTextureIDLoop tag l =
      match l.find? (fun e => e.tag == tag) with
      | none => -1
      | some e => (e.ID : Int) := by
  induction l with
  | nil => rfl
  | cons e rest ih =>
      by_cases hc : e.tag = tag
      · simp [findTextureIDLoop, hc, List.find?_cons]
      · have hb : (e.tag == tag) = false := by simp [hc]
        simp only [findTextureIDLoop, hc, if_false, List.find?_cons, hb]
        exact ih

theorem findIdx?_lower_bound (p : TextureEntry → Bool)
    (l : List TextureEntry) :
    ∀ m j, l.findIdx? p m = some j → m ≤ j := by
  induction l with
  | nil => intro m j hx; simp [List.findIdx?] at hx
  | cons b bs ihb =>
      intro m j hx
      rw [List.findIdx?_cons] at hx
      by_cases hpb : p b
      · rw [if_pos hpb] at hx
        have := Option.some.inj hx
        omega
      · rw [if_neg hpb] at hx
        have := ihb (m + 1) j hx
        omega

theorem findIdx?_some_find?_get (p : TextureEntry → Bool)
    (l : List TextureEntry) :
    ∀ n i, l.findIdx? p n = some (n + i) →
      ∃ h : i < l.length, l.find? p = some (l.get ⟨i, h⟩) := by
  induction l with
  | nil => intro n i h; simp [List.findIdx?] at h
  | cons e rest ih =>
      intro n i h
      rw [List.findIdx?_cons] at h
      by_cases hp : p e
      · rw [if_pos hp] at h
        have hi : i = 0 := by
          have := Option.some.inj h
          omega
        subst hi
        exact ⟨Nat.succ_pos _, by simp [List.find?_cons, hp]⟩
      · rw [if_neg hp] at h
        match i with
        | 0 =>
            exfalso
            have := findIdx?_lower_bound p rest (n + 1) (n + 0) h
            omega
        | i' + 1 =>
            have h' : rest.findIdx? p (n + 1) = some ((n + 1) + i') := by
              have : n + (i' + 1) = (n + 1) + i' := by omega
              rw [← this]; exact h
            obtain ⟨hlt, hfind⟩ := ih (n + 1) i' h'
            exact ⟨Nat.succ_lt_succ hlt, by simp [List.find?_cons, hp, hfind]⟩

theorem findMaterialScan_no_match (tag : String) (m : OBJECT_MATERIAL)
    (l : List OBJECT_MATERIAL) (h : ∀ e ∈ l, e.tag ≠ tag) :
    findMaterialScan tag m l = m := by
  induction l with
  | nil => rfl
  | cons e rest ih =>
      have he : e.tag ≠ tag := h e (List.mem_cons_self e rest)
      simp only [findMaterialScan, he, if_false]
      exact ih (fun x hx => h x (List.mem_cons_of_mem e hx))

theorem findMaterialScan_first_match (tag : String) (m : OBJECT_MATERIAL)
    (l : List OBJECT_MATERIAL) (e : OBJECT_MATERIAL)
    (h : l.find? (fun x => x.tag == tag) = some e) :
    findMaterialScan tag m l =
      { m with
          diffuseColor := e.diffuseColor,
          specularColor := e.specularColor,
          shininess := e.shininess } := by
  induction l with
  | nil => simp [List.find?] at h
  | cons a rest ih =>
      by_cases ha : a.tag = tag
      · have : a = e := by
          have hb : (a.tag == tag) = true := by simp [ha]
          rw [List.find?_cons, hb] at h
          exact Option.some.inj h
        subst this
        simp [findMaterialScan, ha]
      · have hb : (a.tag == tag) = false := by simp [ha]
        rw [List.find?_cons] at h
        simp only [hb] at h
        simp only [findMaterialScan, ha, if_false]
        exact ih h

theorem destroyGLTexturesLoop_eq (freshID : Nat → Nat) :
    ∀ (l : List TextureEntry) (n : Nat),
      destroyGLTexturesLoop freshID n l =
        ((l.enumFrom n).map
           (fun p => { ID := freshID p.1, tag := p.2.tag }),
         List.replicate l.length Event.glGenTexturesCall) := by
  intro l
  induction l with
  | nil => intro n; rfl
  | cons e rest ih =>
      intro n
      simp only [destroyGLTexturesLoop, ih (n + 1), List.enumFrom,
        List.map_cons, List.length_cons, List.replicate_succ]

/- ------------------------------------------------------------------ -/
/- Claim theorems                                                      -/
/- ------------------------------------------------------------------ -/

/-- C8: DestroyGLTextures issues a glGenTextures call (never a
glDeleteTextures call) on each catalog entry's handle field, overwriting
each stored handle with the newly generated one (`freshID i` at catalog
index `i`), while leaving the loaded-texture count and the entries' tags
unchanged. -/
theorem destroyGLTextures_generates_not_deletes
    (s : SceneState) (freshID : Nat → Nat) :
    DestroyGLTextures s freshID =
      ({ s with textureIDs :=
           (s.textureIDs.enum.map
             (fun p => { ID := freshID p.1, tag := p.2.tag })) },
       List.replicate s.loadedTextures Event.glGenTexturesCall) ∧
    Event.glDeleteTexturesCall ∉ (DestroyGLTextures s freshID).2 ∧
    (DestroyGLTextures s freshID).1.textureIDs.map TextureEntry.tag =
      s.textureIDs.map TextureEntry.tag ∧
    (DestroyGLTextures s freshID).1.loadedTextures = s.loadedTextures := by
  have hloop := destroyGLTexturesLoop_eq freshID s.textureIDs 0
  have hmain :
      DestroyGLTextures s freshID =
        ({ s with textureIDs :=
             (s.textureIDs.enum.map
               (fun p => { ID := freshID p.1, tag := p.2.tag })) },
         List.replicate s.loadedTextures Event.glGenTexturesCall) := by
    simp only [DestroyGLTextures, hloop, List.enum_eq_enumFrom,
      SceneState.loadedTextures]
  refine ⟨hmain, ?_, ?_, ?_⟩
  · rw [hmain]
    intro hmem
    have := List.eq_of_mem_replicate hmem
    exact Event.noConfusion this
  · rw [hmain]
    simp only [List.map_map]
    have : ∀ (l : List TextureEntry) (n : Nat),
        (l.enumFrom n).map
            (fun p => ({ ID := freshID p.1, tag := p.2.tag } :
              TextureEntry).tag) =
          l.map TextureEntry.tag := by
      intro l
      induction l with
      | nil => intro n; rfl
      | cons e rest ih =>
          intro n
          simp only [List.enumFrom, List.map_cons, ih (n + 1)]
    exact this s.textureIDs 0
  · rw [hmain]
    simp only [SceneState.loadedTextures, List.length_map,
      List.enum_eq_enumFrom]
    have : ∀ (l : List TextureEntry) (n : Nat),
        (l.enumFrom n).length = l.length := by
      intro l
      induction l with
      | nil => intro n; rfl
      | cons e rest ih =>
          intro n
          simp only [List.enumFrom, List.length_cons, ih (n + 1)]
    exact this s.textureIDs 0

/-- C9: FindTextureSlot is a first-match linear lookup returning the least
catalog index whose entry's tag matches (−1 when no entry matches), and
FindTextureID returns the handle stored at that same index (−1 when no
entry matches).  Both are pure lookups: they take the state and return an
integer, writing nothing. -/
theorem findTexture_lookup_contract (s : SceneState) (tag : String) :
    (FindTextureSlot s tag =
      match s.textureIDs.findIdx? (fun e => e.tag == tag) with
      | none => -1
      | some i => (i : Int)) ∧
    (FindTextureID s tag =
      match s.textureIDs.find? (fun e => e.tag == tag) with
      | none => -1
      | some e => (e.ID : Int)) ∧
    (∀ i, s.textureIDs.findIdx? (fun e => e.tag == tag) = some i →
      ∃ h : i < s.loadedTextures,
        FindTextureSlot s tag = (i : Int) ∧
        FindTextureID s tag = ((s.textureIDs.get ⟨i, h⟩).ID : Int)) := by
  have hslot := findTextureSlotLoop_eq_findIdx tag s.textureIDs 0
  have hslot' :
      FindTextureSlot s tag =
        match s.textureIDs.findIdx? (fun e => e.tag == tag) with
        | none => -1
        | some i => (i : Int) := by
    simpa [FindTextureSlot] using hslot
  have hid' :
      FindTextureID s tag =
        match s.textureIDs.find? (fun e => e.tag == tag) with
        | none => -1
        | some e => (e.ID : Int) :=
    findTextureIDLoop_eq_find tag s.textureIDs
  refine ⟨hslot', hid', ?_⟩
  intro i h
  have h0 : s.textureIDs.findIdx? (fun e => e.tag == tag) = some (0 + i) := by
    simpa using h
  obtain ⟨hlt, hfind⟩ :=
    findIdx?_some_find?_get (fun e => e.tag == tag) s.textureIDs 0 i h0
  refine ⟨hlt, ?_, ?_⟩
  · rw [hslot', h]
  · rw [hid', hfind]

/-- Witness for C9 at a concrete catalog: with entries tagged "a", "b",
"b", lookup of "b" yields slot 1 (the least matching index) and handle 7
(the handle stored at index 1); an unknown tag yields −1. -/
theorem findTexture_lookup_contract_witness :
    FindTextureSlot ⟨true, true, [⟨5, "a"⟩, ⟨7, "b"⟩, ⟨9, "b"⟩], []⟩ "b" = 1 ∧
    FindTextureID ⟨true, true, [⟨5, "a"⟩, ⟨7, "b"⟩, ⟨9, "b"⟩], []⟩ "b" = 7 ∧
    FindTextureSlot ⟨true, true, [⟨5, "a"⟩, ⟨7, "b"⟩, ⟨9, "b"⟩], []⟩ "zzz" = -1 := by
  obtain ⟨hlt, hslot, hid⟩ :=
    (findTexture_lookup_contract
      ⟨true, true, [⟨5, "a"⟩, ⟨7, "b"⟩, ⟨9, "b"⟩], []⟩ "b").2.2 1 (by decide)
  exact ⟨hslot, hid, by decide⟩

/-- C2: FindMaterial returns false exactly when the material catalog is
empty; on a non-empty catalog it returns true for every tag.  When no
entry matches, the out-parameter is returned unmodified; when a match
exists, the first matching entry's diffuse color, specular color and
shininess are copied into it.  After DefineObjectMaterials runs (from a
fresh state), "stone" resolves to diffuse (0.5,0.5,0.5), specular
(0.73,0.3,0.3), shininess 6, and "wood" to diffuse (0.6,0.5,0.2). -/
theorem findMaterial_contract (s : SceneState) (tag : String)
    (m : OBJECT_MATERIAL) :
    ((FindMaterial s tag m).1 = false ↔ s.objectMaterials = []) ∧
    ((∀ e ∈ s.objectMaterials, e.tag ≠ tag) → (FindMaterial s tag m).2 = m) ∧
    (∀ e, s.objectMaterials.find? (fun x => x.tag == tag) = some e →
      (FindMaterial s tag m).2 =
        { m with
            diffuseColor := e.diffuseColor,
            specularColor := e.specularColor,
            shininess := e.shininess }) ∧
    (FindMaterial (DefineObjectMaterials ⟨true, true, [], []⟩) "stone" m).1
      = true ∧
    (FindMaterial (DefineObjectMaterials ⟨true, true, [], []⟩) "stone" m).2.diffuseColor
      = ⟨0.5, 0.5, 0.5⟩ ∧
    (FindMaterial (DefineObjectMaterials ⟨true, true, [], []⟩) "stone" m).2.specularColor
      = ⟨0.73, 0.3, 0.3⟩ ∧
    (FindMaterial (DefineObjectMaterials ⟨true, true, [], []⟩) "stone" m).2.shininess
      = 6.0 ∧
    (FindMaterial (DefineObjectMaterials ⟨true, true, [], []⟩) "wood" m).1
      = true ∧
    (FindMaterial (DefineObjectMaterials ⟨true, true, [], []⟩) "wood" m).2.diffuseColor
      = ⟨0.6, 0.5, 0.2⟩ := by
  refine ⟨?_, ?_, ?_, rfl, rfl, rfl, rfl, rfl, rfl⟩
  · cases hmat : s.objectMaterials with
    | nil => simp [FindMaterial, hmat]
    | cons a l => simp [FindMaterial, hmat]
  · intro h
    cases hmat : s.objectMaterials with
    | nil => simp [FindMaterial, hmat]
    | cons a l =>
        have h' : ∀ e ∈ a :: l, e.tag ≠ tag := by rw [← hmat]; exact h
        simp only [FindMaterial, hmat, List.length_cons]
        rw [if_neg (by simp)]
        exact findMaterialScan_no_match tag m (a :: l) h'
  · intro e he
    cases hmat : s.objectMaterials with
    | nil => rw [hmat] at he; simp [List.find?] at he
    | cons a l =>
        rw [hmat] at he
        simp only [FindMaterial, hmat, List.length_cons]
        rw [if_neg (by simp)]
        exact findMaterialScan_first_match tag m (a :: l) e he

/-- Witness for C2 at concrete inputs: an empty catalog yields false and a
non-empty catalog with no matching tag yields an unmodified
out-parameter. -/
theorem findMaterial_contract_witness :
    (FindMaterial ⟨true, true, [], []⟩ "stone" sampleMaterial).1 = false ∧
    (FindMaterial (DefineObjectMaterials ⟨true, true, [], []⟩) "granite"
        sampleMaterial).2 = sampleMaterial ∧
    (FindMaterial (DefineObjectMaterials ⟨true, true, [], []⟩) "stone"
        sampleMaterial).2.diffuseColor = ⟨0.5, 0.5, 0.5⟩ := by
  have h1 := findMaterial_contract ⟨true, true, [], []⟩ "stone" sampleMaterial
  have h2 := findMaterial_contract (DefineObjectMaterials ⟨true, true, [], []⟩)
    "granite" sampleMaterial
  exact ⟨h1.1.mpr rfl, h2.2.1 (by decide), h1.2.2.2.2.1⟩

/-- Counterexample to C3 as stated: with no Shader Interface attached but a
non-empty material catalog (here the catalog DefineObjectMaterials
installs), SetShaderMaterial is NOT a harmless no-op — the source calls
the shader manager's setters without a null check once FindMaterial
reports success, which it always does on a non-empty catalog.  `none`
models that null-pointer dereference; a no-op would be `some []`. -/
theorem setShaderMaterial_null_deref_cex :
    SetShaderMaterial ⟨false, true, [], sceneMaterials⟩ "plastic"
        sampleMaterial = none ∧
    SetShaderMaterial ⟨false, true, [], sceneMaterials⟩ "plastic"
        sampleMaterial ≠ some [] := by
  exact ⟨rfl, by decide⟩

/-- C3 as amended: when no Shader Interface is attached,
SetTransformations, SetShaderColor, SetShaderTexture and SetTextureUVScale
upload nothing, never crash and leave all state unchanged (they are pure
functions of the state returning an empty trace); SetShaderMaterial,
however, is a silent no-op only when the material catalog is empty — on a
non-empty catalog it dereferences the null shader pointer. -/
theorem nullShader_upload_behavior (s : SceneState) (tag : String)
    (m : OBJECT_MATERIAL) (sc pos : Vec3) (xr yr zr r g b a u v : ℚ)
    (h : s.shaderAttached = false) :
    SetTransformations s sc xr yr zr pos = [] ∧
    SetShaderColor s r g b a = [] ∧
    SetShaderTexture s tag = [] ∧
    SetTextureUVScale s u v = [] ∧
    SetShaderMaterial s tag m =
      (if s.objectMaterials.length = 0 then some [] else none) := by
  refine ⟨?_, ?_, ?_, ?_, ?_⟩
  · simp [SetTransformations, h]
  · simp [SetShaderColor, h]
  · simp [SetShaderTexture, h]
  · simp [SetTextureUVScale, h]
  · by_cases hz : s.objectMaterials.length = 0
    · rw [if_pos hz]
      simp [SetShaderMaterial, hz]
    · rw [if_neg hz]
      have hpos : 0 < s.objectMaterials.length := Nat.pos_of_ne_zero hz
      have hfound : (FindMaterial s tag m).1 = true := by
        simp [FindMaterial, hz]
      simp [SetShaderMaterial, hpos, hfound, h]

/-- Witness for C3's amended theorem at a concrete shader-less state. -/
theorem nullShader_upload_behavior_witness :
    SetTransformations ⟨false, true, [], sceneMaterials⟩ ⟨1, 1, 1⟩ 0 0 0
        ⟨0, 0, 0⟩ = [] ∧
    SetShaderColor ⟨false, true, [], sceneMaterials⟩ 1 0 0 1 = [] ∧
    SetShaderTexture ⟨false, true, [], sceneMaterials⟩ "wall" = [] ∧
    SetTextureUVScale ⟨false, true, [], sceneMaterials⟩ 2 2 = [] ∧
    SetShaderMaterial ⟨false, true, [], sceneMaterials⟩ "wood"
        sampleMaterial = none := by
  have h := nullShader_upload_behavior ⟨false, true, [], sceneMaterials⟩
    "wall" sampleMaterial ⟨1, 1, 1⟩ ⟨0, 0, 0⟩ 0 0 0 1 0 0 1 2 2 rfl
  have h2 := nullShader_upload_behavior ⟨false, true, [], sceneMaterials⟩
    "wood" sampleMaterial ⟨1, 1, 1⟩ ⟨0, 0, 0⟩ 0 0 0 1 0 0 1 2 2 rfl
  exact ⟨h.1, h.2.1, h.2.2.1, h.2.2.2.1, by
    have := h2.2.2.2.2
    simpa using this⟩

/-- C5: CreateGLTexture is atomic on failure with respect to the catalog:
a decode failure, or a decoded channel count outside {3,4}, yields a false
result with the texture catalog (entries and count) and material catalog
untouched; on success exactly one {handle, tag} entry is appended, so the
loaded-texture count grows by one. -/
theorem createGLTexture_catalog_atomic (s : SceneState)
    (filename tag : String) (newID : Nat) (w h ch : Nat) :
    ((CreateGLTexture s DecodeResult.failure filename tag newID).1 = false ∧
     (CreateGLTexture s DecodeResult.failure filename tag newID).2.1 = s) ∧
    (ch ≠ 3 → ch ≠ 4 →
      (CreateGLTexture s (DecodeResult.success w h ch) filename tag
          newID).1 = false ∧
      (CreateGLTexture s (DecodeResult.success w h ch) filename tag
          newID).2.1 = s) ∧
    (ch = 3 ∨ ch = 4 →
      (CreateGLTexture s (DecodeResult.success w h ch) filename tag
          newID).1 = true ∧
      (CreateGLTexture s (DecodeResult.success w h ch) filename tag
          newID).2.1.textureIDs =
        s.textureIDs ++ [{ ID := newID, tag := tag }] ∧
      (CreateGLTexture s (DecodeResult.success w h ch) filename tag
          newID).2.1.objectMaterials = s.objectMaterials ∧
      (CreateGLTexture s (DecodeResult.success w h ch) filename tag
          newID).2.1.loadedTextures = s.loadedTextures + 1) := by
  refine ⟨⟨rfl, rfl⟩, ?_, ?_⟩
  · intro h3 h4
    have hne : ¬(ch = 3 ∨ ch = 4) := by
      intro hor
      cases hor with
      | inl hh => exact h3 hh
      | inr hh => exact h4 hh
    constructor
    · simp [CreateGLTexture, hne]
    · simp [CreateGLTexture, hne]
  · intro hor
    refine ⟨?_, ?_, ?_, ?_⟩
    · simp [CreateGLTexture, hor]
    · simp [CreateGLTexture, hor]
    · simp [CreateGLTexture, hor]
    · simp [CreateGLTexture, hor, SceneState.loadedTextures]

/-- Witness for C5 at concrete inputs: a 2-channel image is rejected with
the catalog unchanged; a 4-channel image appends exactly one entry. -/
theorem createGLTexture_catalog_atomic_witness :
    (CreateGLTexture ⟨true, true, [⟨3, "old"⟩], []⟩
        (DecodeResult.success 8 8 2) "textures/x.png" "x" 9).1 = false ∧
    (CreateGLTexture ⟨true, true, [⟨3, "old"⟩], []⟩
        (DecodeResult.success 8 8 2) "textures/x.png" "x" 9).2.1 =
      ⟨true, true, [⟨3, "old"⟩], []⟩ ∧
    (CreateGLTexture ⟨true, true, [⟨3, "old"⟩], []⟩
        (DecodeResult.success 8 8 4) "textures/x.png" "x" 9).2.1.textureIDs =
      [⟨3, "old"⟩, ⟨9, "x"⟩] := by
  have h := createGLTexture_catalog_atomic ⟨true, true, [⟨3, "old"⟩], []⟩
    "textures/x.png" "x" 9 8 8 2
  have h4 := createGLTexture_catalog_atomic ⟨true, true, [⟨3, "old"⟩], []⟩
    "textures/x.png" "x" 9 8 8 4
  obtain ⟨hf, hs⟩ := h.2.1 (by decide) (by decide)
  exact ⟨hf, hs, (h4.2.2 (Or.inr rfl)).2.1⟩

/-- C7: when the Mesh Library pointer is null, RenderScene logs an error
line and returns: its trace contains zero draw calls and zero uniform
uploads, it never crashes (the result is always `some`), and — the source
writing no member state on this path — the state is unchanged; this holds
on every such call. -/
theorem renderScene_null_meshes (s : SceneState) (m : OBJECT_MATERIAL)
    (h : s.meshesPresent = false) :
    RenderScene s m = some [Event.logLine "ERROR: m_basicMeshes is null!"] ∧
    ((RenderScene s m).getD []).filterMap drawKindOf = [] ∧
    ((RenderScene s m).getD []).filter isUploadEvent = [] := by
  have hmain : RenderScene s m =
      some [Event.logLine "ERROR: m_basicMeshes is null!"] := by
    simp [RenderScene, h]
  refine ⟨hmain, ?_, ?_⟩
  · rw [hmain]; rfl
  · rw [hmain]; rfl

/-- Witness for C7 at a concrete mesh-less state. -/
theorem renderScene_null_meshes_witness :
    RenderScene ⟨true, false, [], sceneMaterials⟩ sampleMaterial =
      some [Event.logLine "ERROR: m_basicMeshes is null!"] := by
  exact (renderScene_null_meshes ⟨true, false, [], sceneMaterials⟩
    sampleMaterial rfl).1

theorem bindGLTexturesLoop_eq :
    ∀ (l : List TextureEntry) (n : Nat),
      bindGLTexturesLoop n l =
        ((l.enumFrom n).map
          (fun p => [Event.glActiveTextureCall p.1,
                     Event.glBindTextureCall p.2.ID])).flatten := by
  intro l
  induction l with
  | nil => intro n; rfl
  | cons e rest ih =>
      intro n
      simp only [bindGLTexturesLoop, ih (n + 1), List.enumFrom,
        List.map_cons, List.flatten_cons, List.cons_append, List.nil_append]

/-- C4: the model matrix computed by SetTransformations equals
Translate × RotateZ × RotateY × RotateX × Scale with the angles converted
from degrees to radians before composition; consequently, for scale
(1,1,1), rotation (0,0,90) degrees and translation (0,0,0), the local
point (1,0,0) (homogeneous (1,0,0,1)) maps to (0,1,0) — exactly, over ℝ,
which is within the claim's floating-point tolerance. -/
theorem modelMatrix_composition_and_rotZ_point
    (sx sy sz xr yr zr tx ty tz : ℝ) :
    modelMatrix sx sy sz xr yr zr tx ty tz =
      translationMatrix tx ty tz * rotationZMatrix (radians zr) *
        rotationYMatrix (radians yr) * rotationXMatrix (radians xr) *
        scaleMatrix sx sy sz ∧
    (modelMatrix 1 1 1 0 0 90 0 0 0).mulVec ![1, 0, 0, 1] =
      ![0, 1, 0, 1] := by
  refine ⟨rfl, ?_⟩
  have h0 : radians 0 = 0 := by simp [radians]
  have h90 : radians 90 = Real.pi / 2 := by unfold radians; ring
  simp only [modelMatrix, h0, h90]
  simp only [rotationXMatrix, rotationYMatrix, rotationZMatrix, scaleMatrix,
    translationMatrix, Real.cos_zero, Real.sin_zero, Real.cos_pi_div_two,
    Real.sin_pi_div_two]
  simp only [← Matrix.mulVec_mulVec]
  funext i
  fin_cases i <;>
    simp [Matrix.mulVec, Matrix.dotProduct, Fin.sum_univ_four,
      Matrix.vecHead, Matrix.vecTail]

/-- Counterexample to C1 as stated: the Mesh Library is present
(`meshesPresent = true`) but with no Shader Interface attached and empty
catalogs, RenderScene still issues its 13 draw calls while performing zero
shader uniform uploads — so not every draw call is preceded by a
transform, material and texture upload. -/
theorem renderScene_no_uploads_cex :
    (((RenderScene ⟨false, true, [], []⟩ sampleMaterial).getD
        []).filterMap drawKindOf).length = 13 ∧
    ((RenderScene ⟨false, true, [], []⟩ sampleMaterial).getD
        []).filter isUploadEvent = [] := by
  exact ⟨rfl, rfl⟩

/-- C1 as amended: whenever the Mesh Library is present, a Shader
Interface is attached, and the material catalog is the six-entry catalog
DefineObjectMaterials installs, RenderScene emits exactly the trace
`specRenderTrace`: the 13 draw commands in declaration order, each draw
call immediately preceded by exactly one model-transform upload, one
material upload (the three material.* uniforms of the command's material
tag) and one texture upload (the bUseTexture flag plus the objectTexture
sampler slot), in that order; in particular the draw calls are, in order,
plane, plane, sphere, six cylinders, and four boxes. -/
theorem renderScene_draw_list_amended (ts : List TextureEntry)
    (m : OBJECT_MATERIAL) :
    RenderScene ⟨true, true, ts, sceneMaterials⟩ m =
      some (specRenderTrace ts) ∧
    (specRenderTrace ts).filterMap drawKindOf =
      [MeshType.Plane, MeshType.Plane, MeshType.Sphere, MeshType.Cylinder,
       MeshType.Cylinder, MeshType.Cylinder, MeshType.Cylinder,
       MeshType.Cylinder, MeshType.Cylinder, MeshType.Box, MeshType.Box,
       MeshType.Box, MeshType.Box] ∧
    ((specRenderTrace ts).filterMap drawKindOf).length = 13 := by
  refine ⟨rfl, rfl, rfl⟩

theorem createGLTexture_success_eq (s : SceneState) (filename tag : String)
    (newID w h ch : Nat) (hch : ch = 3 ∨ ch = 4) :
    CreateGLTexture s (DecodeResult.success w h ch) filename tag newID =
      (true,
       { s with textureIDs :=
           (s.textureIDs ++ [{ ID := newID, tag := tag }]) },
       [Event.logLine ("Successfully loaded image:" ++ filename),
        Event.glGenTexturesCall, Event.glBindTextureCall newID,
        Event.glTexParameteriCall, Event.glTexParameteriCall,
        Event.glTexParameteriCall, Event.glTexParameteriCall,
        Event.glTexImage2DCall ch, Event.glGenerateMipmapCall,
        Event.glBindTextureCall 0]) := by
  simp [CreateGLTexture, hch]

/-- C6: from an empty texture catalog, LoadSceneTextures — when all 11
fixed files decode with a supported channel count — registers exactly 11
catalog entries bearing, in order, the tags Lid, Stone, pasta, glass, jar,
beancontainer, beancontainer1, painting, table, wall, plastic (entry n
holding the handle glGenTextures produced for the n-th load), and then
calls BindGLTextures, which binds catalog entry i to texture unit i for
every index i below the loaded-texture count (shown both as the concrete
22-event bind trace of this run and as the general characterization of
BindGLTextures on any state). -/
theorem loadSceneTextures_registers_and_binds (sh mp : Bool)
    (mats : List OBJECT_MATERIAL) (w h ch : String → Nat) (ids : Nat → Nat)
    (hch : ∀ f, ch f = 3 ∨ ch f = 4) :
    (LoadSceneTextures ⟨sh, mp, [], mats⟩
        (fun f => DecodeResult.success (w f) (h f) (ch f))
        ids).1.textureIDs =
      [⟨ids 0, "Lid"⟩, ⟨ids 1, "Stone"⟩, ⟨ids 2, "pasta"⟩,
       ⟨ids 3, "glass"⟩, ⟨ids 4, "jar"⟩, ⟨ids 5, "beancontainer"⟩,
       ⟨ids 6, "beancontainer1"⟩, ⟨ids 7, "painting"⟩, ⟨ids 8, "table"⟩,
       ⟨ids 9, "wall"⟩, ⟨ids 10, "plastic"⟩] ∧
    (LoadSceneTextures ⟨sh, mp, [], mats⟩
        (fun f => DecodeResult.success (w f) (h f) (ch f))
        ids).1.textureIDs.map TextureEntry.tag =
      ["Lid", "Stone", "pasta", "glass", "jar", "beancontainer",
       "beancontainer1", "painting", "table", "wall", "plastic"] ∧
    (LoadSceneTextures ⟨sh, mp, [], mats⟩
        (fun f => DecodeResult.success (w f) (h f) (ch f))
        ids).1.loadedTextures = 11 ∧
    (BindGLTextures (LoadSceneTextures ⟨sh, mp, [], mats⟩
        (fun f => DecodeResult.success (w f) (h f) (ch f)) ids).1).2 =
      [Event.glActiveTextureCall 0, Event.glBindTextureCall (ids 0),
       Event.glActiveTextureCall 1, Event.glBindTextureCall (ids 1),
       Event.glActiveTextureCall 2, Event.glBindTextureCall (ids 2),
       Event.glActiveTextureCall 3, Event.glBindTextureCall (ids 3),
       Event.glActiveTextureCall 4, Event.glBindTextureCall (ids 4),
       Event.glActiveTextureCall 5, Event.glBindTextureCall (ids 5),
       Event.glActiveTextureCall 6, Event.glBindTextureCall (ids 6),
       Event.glActiveTextureCall 7, Event.glBindTextureCall (ids 7),
       Event.glActiveTextureCall 8, Event.glBindTextureCall (ids 8),
       Event.glActiveTextureCall 9, Event.glBindTextureCall (ids 9),
       Event.glActiveTextureCall 10, Event.glBindTextureCall (ids 10)] ∧
    (∀ s' : SceneState,
      (BindGLTextures s').2 =
        ((s'.textureIDs.enum.map
          (fun p => [Event.glActiveTextureCall p.1,
                     Event.glBindTextureCall p.2.ID])).flatten)) := by
  have hcat :
      (LoadSceneTextures ⟨sh, mp, [], mats⟩
          (fun f => DecodeResult.success (w f) (h f) (ch f))
          ids).1.textureIDs =
        [⟨ids 0, "Lid"⟩, ⟨ids 1, "Stone"⟩, ⟨ids 2, "pasta"⟩,
         ⟨ids 3, "glass"⟩, ⟨ids 4, "jar"⟩, ⟨ids 5, "beancontainer"⟩,
         ⟨ids 6, "beancontainer1"⟩, ⟨ids 7, "painting"⟩, ⟨ids 8, "table"⟩,
         ⟨ids 9, "wall"⟩, ⟨ids 10, "plastic"⟩] := by
    simp [LoadSceneTextures, loadTexturesCalls, sceneTextureFiles,
      BindGLTextures, createGLTexture_success_eq, hch]
  refine ⟨hcat, ?_, ?_, ?_, ?_⟩
  · rw [hcat]; rfl
  · simp only [SceneState.loadedTextures, hcat]; rfl
  · simp only [BindGLTextures, hcat]; rfl
  · intro s'
    simpa [BindGLTextures] using bindGLTexturesLoop_eq s'.textureIDs 0

/-- Witness for C6 with every file decoding as a 4-channel image and
glGenTextures returning consecutive handles. -/
theorem loadSceneTextures_registers_and_binds_witness :
    (LoadSceneTextures ⟨true, true, [], []⟩
        (fun _ => DecodeResult.success 4 4 4)
        (fun n => n)).1.textureIDs.map TextureEntry.tag =
      ["Lid", "Stone", "pasta", "glass", "jar", "beancontainer",
       "beancontainer1", "painting", "table", "wall", "plastic"] ∧
    (LoadSceneTextures ⟨true, true, [], []⟩
        (fun _ => DecodeResult.success 4 4 4)
        (fun n => n)).1.loadedTextures = 11 := by
  have hx := loadSceneTextures_registers_and_binds true true []
    (fun _ => 4) (fun _ => 4) (fun _ => 4) (fun n => n)
    (fun _ => Or.inr rfl)
  exact ⟨hx.2.1, hx.2.2.1⟩

/-- C10: the catalogs are append-only.  Among the operations that return a
state in this embedding: a CreateGLTexture call reporting success appends
exactly one entry to the texture catalog, one reporting failure leaves the
state untouched, and neither ever changes the material catalog;
BindGLTextures returns the state unchanged; DestroyGLTextures keeps the
loaded-texture count, the entries' tags and the material catalog (it only
overwrites handles in place); DefineObjectMaterials appends exactly the six
fixed materials and leaves the texture catalog unchanged.  RenderScene,
the Find* lookups and the Set* uploads are embedded as functions returning
only traces/values because the source writes no member state in them. -/
theorem catalogs_append_only (s : SceneState) (img : DecodeResult)
    (filename tag : String) (newID : Nat) (freshID : Nat → Nat) :
    ((CreateGLTexture s img filename tag newID).1 = true →
      (CreateGLTexture s img filename tag newID).2.1.textureIDs =
        s.textureIDs ++ [{ ID := newID, tag := tag }]) ∧
    ((CreateGLTexture s img filename tag newID).1 = false →
      (CreateGLTexture s img filename tag newID).2.1 = s) ∧
    (CreateGLTexture s img filename tag newID).2.1.objectMaterials =
      s.objectMaterials ∧
    (BindGLTextures s).1 = s ∧
    (DestroyGLTextures s freshID).1.textureIDs.map TextureEntry.tag =
      s.textureIDs.map TextureEntry.tag ∧
    (DestroyGLTextures s freshID).1.loadedTextures = s.loadedTextures ∧
    (DestroyGLTextures s freshID).1.objectMaterials = s.objectMaterials ∧
    (DefineObjectMaterials s).objectMaterials =
      s.objectMaterials ++ sceneMaterials ∧
    (DefineObjectMaterials s).textureIDs = s.textureIDs := by
  have hdestroy := destroyGLTexturesLoop_eq freshID s.textureIDs 0
  have htags : ∀ (l : List TextureEntry) (n : Nat),
      ((l.enumFrom n).map
          (fun p => ({ ID := freshID p.1, tag := p.2.tag } :
            TextureEntry))).map TextureEntry.tag =
        l.map TextureEntry.tag := by
    intro l
    induction l with
    | nil => intro n; rfl
    | cons e rest ih =>
        intro n
        simp only [List.enumFrom, List.map_cons, ih (n + 1)]
  have hlen : ∀ (l : List TextureEntry) (n : Nat),
      (l.enumFrom n).length = l.length := by
    intro l
    induction l with
    | nil => intro n; rfl
    | cons e rest ih =>
        intro n
        simp only [List.enumFrom, List.length_cons, ih (n + 1)]
  refine ⟨?_, ?_, ?_, rfl, ?_, ?_, ?_, rfl, rfl⟩
  · intro htrue
    match img with
    | DecodeResult.failure => exact absurd htrue (by simp [CreateGLTexture])
    | DecodeResult.success w h ch =>
        by_cases hch : ch = 3 ∨ ch = 4
        · simp [CreateGLTexture, hch]
        · exact absurd htrue (by simp [CreateGLTexture, hch])
  · intro hfalse
    match img with
    | DecodeResult.failure => rfl
    | DecodeResult.success w h ch =>
        by_cases hch : ch = 3 ∨ ch = 4
        · exact absurd hfalse (by simp [CreateGLTexture, hch])
        · simp [CreateGLTexture, hch]
  · match img with
    | DecodeResult.failure => rfl
    | DecodeResult.success w h ch =>
        by_cases hch : ch = 3 ∨ ch = 4
        · simp [CreateGLTexture, hch]
        · simp [CreateGLTexture, hch]
  · simp only [DestroyGLTextures, hdestroy]
    exact htags s.textureIDs 0
  · simp only [DestroyGLTextures, hdestroy, SceneState.loadedTextures,
      List.length_map]
    exact hlen s.textureIDs 0
  · simp only [DestroyGLTextures, hdestroy]

/-- Witness for C10 at concrete inputs: a successful 4-channel load
appends exactly one entry; a failed decode leaves the state unchanged. -/
theorem catalogs_append_only_witness :
    (CreateGLTexture ⟨true, true, [⟨1, "old"⟩], []⟩
        (DecodeResult.success 2 2 4) "textures/y.png" "y" 8).2.1.textureIDs =
      [⟨1, "old"⟩, ⟨8, "y"⟩] ∧
    (CreateGLTexture ⟨true, true, [⟨1, "old"⟩], []⟩
        DecodeResult.failure "textures/y.png" "y" 8).2.1 =
      ⟨true, true, [⟨1, "old"⟩], []⟩ := by
  have h1 := catalogs_append_only ⟨true, true, [⟨1, "old"⟩], []⟩
    (DecodeResult.success 2 2 4) "textures/y.png" "y" 8 (fun n => n)
  have h2 := catalogs_append_only ⟨true, true, [⟨1, "old"⟩], []⟩
    DecodeResult.failure "textures/y.png" "y" 8 (fun n => n)
  exact ⟨h1.1 rfl, h2.2.1 rfl⟩

end SceneMgr
